import Mathlib

/-!
Verification of the CheevO! API proxy worker (`src/unnamed/part_000`).

The worker is a Cloudflare Worker: a single `fetch(request, env)` entry point
with two pieces of per-instance mutable state (`rateLimitMap`, `responseCache`).
We embed it shallowly: the mutable tables become explicit association lists
threaded through the handler, `Date.now()` becomes an explicit `now : Nat`
(milliseconds), the single outbound `fetch` becomes an oracle argument giving
the upstream outcome, and the JSON request body of the `/api/anthropic` route
becomes a typed record (`ChatBody`) whose optional fields carry the JSON types
the handler reads; `Except String` models a JSON parse that can throw.
JS falsiness of the values the code tests with `||` / `!` (number `0`, empty
string, absent field) is modelled explicitly.  JSON numbers are embedded as
`Rat` (the JS float literals `0.7`/`1.0` become the rationals they denote).
String primitives used by the code (`startsWith`, `slice`, `includes`) are
modelled on the character list of the string.
-/

namespace CheevoProxy

/-- JS `s.startsWith(p)`, on the character list of the string. -/
def jsStartsWith (s p : String) : Bool :=
  p.data.isPrefixOf s.data

/-- JS `s.slice(n)` (drop the first `n` characters). -/
def jsSliceFrom (s : String) (n : Nat) : String :=
  String.mk (s.data.drop n)

/-- JS `s.includes(c)` for a single character `c`. -/
def jsIncludes (s : String) (c : Char) : Bool :=
  s.data.contains c

/-- JS truthiness of a string value: `""` is falsy, every other string truthy. -/
def strTruthy (s : String) : Bool :=
  !s.data.isEmpty

/-- JS `x || d` for an optional string value: absent or empty gives the default. -/
def jsOrStr (v : Option String) (d : String) : String :=
  match v with
  | some s => if strTruthy s then s else d
  | none => d

/-- JS `x || d` for an optional number value: absent or `0` gives the default. -/
def jsOrNum (v : Option Rat) (d : Rat) : Rat :=
  match v with
  | some q => if q = 0 then d else q
  | none => d

/-- Truthiness of an optional environment variable (`if (env.X)`). -/
def envTruthy (v : Option String) : Bool :=
  match v with
  | some s => strTruthy s
  | none => false

/-- Association-list model of a JS `Map`: first binding of a key wins. -/
def mapGet (m : List (String × α)) (k : String) : Option α :=
  match m with
  | [] => none
  | kv :: rest => if kv.1 = k then some kv.2 else mapGet rest k

/-- JS `Map.set`: replace the binding in place if the key exists, else append. -/
def mapSet (m : List (String × α)) (k : String) (v : α) : List (String × α) :=
  match m with
  | [] => [(k, v)]
  | kv :: rest => if kv.1 = k then (k, v) :: rest else kv :: mapSet rest k v

/-- JS `Map.delete`: remove the bindings of a key. -/
def mapDelete (m : List (String × α)) (k : String) : List (String × α) :=
  m.filter (fun kv => decide (kv.1 ≠ k))

/-- Worker environment variables (Cloudflare `env`); `none` models an unset variable. -/
structure Env where
  ALLOWED_ORIGIN : Option String := none
  CBEAPI_TOKEN : Option String := none
  GNEWS_API_KEY : Option String := none
  FINNHUB_KEY : Option String := none
  ANTHROPIC_API_KEY : Option String := none
deriving DecidableEq

/-- Rate limiter constant `RATE_LIMIT_WINDOW` (1 minute, in ms). -/
def RATE_LIMIT_WINDOW : Nat := 60000

/-- Rate limiter constant `RATE_LIMIT_MAX` (max 20 requests per IP per minute). -/
def RATE_LIMIT_MAX : Nat := 20

/-- One entry of `rateLimitMap`. -/
structure RateLimitEntry where
  count : Nat
  resetAt : Nat
deriving DecidableEq

/-- `checkRateLimit(ip)` of the worker, with `Date.now()` and the
`rateLimitMap` table passed explicitly; returns the admit decision and the
updated table (including the opportunistic cleanup sweep). -/
def checkRateLimit (now : Nat) (ip : String) (m : List (String × RateLimitEntry)) :
    Bool × List (String × RateLimitEntry) :=
  let entry0 := (mapGet m ip).getD { count := 0, resetAt := now + RATE_LIMIT_WINDOW }
  let entry1 := if now > entry0.resetAt then
      { count := 0, resetAt := now + RATE_LIMIT_WINDOW } else entry0
  let entry : RateLimitEntry := { count := entry1.count + 1, resetAt := entry1.resetAt }
  let m1 := mapSet m ip entry
  let m2 := if m1.length > 10000 then
      m1.filter (fun kv => decide (¬ now > kv.2.resetAt)) else m1
  (decide (entry.count ≤ RATE_LIMIT_MAX), m2)

/-- Cache constant `CACHE_TTL` (5 minutes, in ms). -/
def CACHE_TTL : Nat := 300000

/-- Cache constant `CACHEABLE_PREFIXES`. -/
def CACHEABLE_PREFIXES : List String := ["/api/kbo"]

/-- One entry of `responseCache`. -/
structure CacheEntry where
  body : String
  status : Nat
  contentType : String
  expiresAt : Nat
deriving DecidableEq

/-- `getCached(key)` of the worker, with `Date.now()` and the `responseCache`
table passed explicitly; returns the hit (if any) and the updated table
(an expired entry is deleted). -/
def getCached (now : Nat) (cache : List (String × CacheEntry)) (key : String) :
    Option CacheEntry × List (String × CacheEntry) :=
  match mapGet cache key with
  | some entry =>
    if now < entry.expiresAt then (some entry, cache)
    else (none, mapDelete cache key)
  | none => (none, cache)

/-- `setCache(key, body, status, contentType)` of the worker: sweep expired
entries once the table exceeds 500, then insert with `expiresAt = now + CACHE_TTL`. -/
def setCache (now : Nat) (cache : List (String × CacheEntry))
    (key body : String) (status : Nat) (contentType : String) :
    List (String × CacheEntry) :=
  let c1 := if cache.length > 500 then
      cache.filter (fun kv => decide (¬ now > kv.2.expiresAt)) else cache
  mapSet c1 key { body := body, status := status, contentType := contentType,
                  expiresAt := now + CACHE_TTL }

/-- `addHeaders` closure of the `/api/kbo` route. -/
def kboAddHeaders (env : Env) : List (String × String) :=
  (if envTruthy env.CBEAPI_TOKEN then
      [("Authorization", "Bearer " ++ env.CBEAPI_TOKEN.getD "")] else [])
    ++ [("Accept-Language", "nl")]

/-- `addKey` closure of the `/api/gnews` route. -/
def gnewsAddKey (url : String) (env : Env) : String :=
  if envTruthy env.GNEWS_API_KEY then
    let sep := if jsIncludes url '?' then "&" else "?"
    url ++ sep ++ "apikey=" ++ env.GNEWS_API_KEY.getD ""
  else url

/-- `addKey` closure of the `/api/finnhub` route. -/
def finnhubAddKey (url : String) (env : Env) : String :=
  if envTruthy env.FINNHUB_KEY then
    let sep := if jsIncludes url '?' then "&" else "?"
    url ++ sep ++ "token=" ++ env.FINNHUB_KEY.getD ""
  else url

/-- One route of `API_ROUTES`. -/
structure ApiRoute where
  target : String
  description : String
  addHeaders : Option (Env → List (String × String)) := none
  addKey : Option (String → Env → String) := none

/-- The `/api/kbo` route of `API_ROUTES`. -/
def kboRoute : ApiRoute :=
  { target := "https://cbeapi.be/api"
    description := "KBO/CBE - Belgische bedrijfsdata"
    addHeaders := some kboAddHeaders }

/-- The `/api/gnews` route of `API_ROUTES`. -/
def gnewsRoute : ApiRoute :=
  { target := "https://gnews.io/api/v4"
    description := "GNews - Nieuwsartikelen"
    addKey := some gnewsAddKey }

/-- The `/api/finnhub` route of `API_ROUTES`. -/
def finnhubRoute : ApiRoute :=
  { target := "https://finnhub.io/api/v1"
    description := "Finnhub - Beursdata"
    addKey := some finnhubAddKey }

/-- The `API_ROUTES` table, in declaration order (keyed by path prefixes). -/
def API_ROUTES : List (String × ApiRoute) :=
  [ ("/api/kbo", kboRoute)
  , ("/api/gnews", gnewsRoute)
  , ("/api/finnhub", finnhubRoute) ]

/-- The route list echoed by the health check and the 404 body:
`[...Object.keys(API_ROUTES), '/api/anthropic']`. -/
def routesList : List String :=
  API_ROUTES.map (fun kv => kv.1) ++ ["/api/anthropic"]

/-- The JSON value of the `messages` field when it is present: either an array
(whose elements, opaque to the worker, have type `μ`) or a non-array JSON value,
of which the worker only observes truthiness. -/
inductive MessagesField (μ : Type) where
  | arr (elems : List μ)
  | notArr (truthy : Bool)
deriving DecidableEq

/-- The parsed JSON body of an `/api/anthropic` request: the fields the worker
reads, each `none` when absent.  Scalar fields carry the JSON types the
handler's uses expect (numbers for `max_tokens`/`temperature`, strings for
`model`/`system`). -/
structure ChatBody (μ : Type) where
  messages : Option (MessagesField μ) := none
  model : Option String := none
  max_tokens : Option Rat := none
  temperature : Option Rat := none
  system : Option String := none
deriving DecidableEq

/-- The JSON body the worker sends to the Anthropic upstream. -/
structure ForwardBody (μ : Type) where
  model : String
  max_tokens : Rat
  temperature : Rat
  system : String
  messages : List μ
deriving DecidableEq

/-- The body constructed at the anthropic upstream call site:
`model: body.model || default`, `max_tokens: Math.min(body.max_tokens || 2048, 4096)`,
`temperature: Math.min(body.temperature || 0.7, 1.0)`, `system: body.system || ''`,
`messages: body.messages.slice(0, 10)` (here `msgs` is the array `body.messages`).
`mkRat 7 10` is the JS literal `0.7`. -/
def anthropicForward (body : ChatBody μ) (msgs : List μ) : ForwardBody μ :=
  { model := jsOrStr body.model "claude-sonnet-4-5-20250929"
    max_tokens := min (jsOrNum body.max_tokens 2048) 4096
    temperature := min (jsOrNum body.temperature (mkRat 7 10)) 1
    system := jsOrStr body.system ""
    messages := msgs.take 10 }

/-- The fixed CORS allowlist of `corsResponse`, extended with `env.ALLOWED_ORIGIN`
when that is set and not already present. -/
def allowedOriginsFor (env : Env) : List String :=
  let base := [ "https://meyermansheidi.github.io"
              , "http://localhost:3000"
              , "http://localhost:5500"
              , "http://127.0.0.1:5500" ]
  if envTruthy env.ALLOWED_ORIGIN ∧ ¬ base.contains (env.ALLOWED_ORIGIN.getD "") = true then
    base ++ [env.ALLOWED_ORIGIN.getD ""]
  else base

/-- The body of a worker response, at the granularity the worker distinguishes:
nothing (the 204 preflight), the health-check JSON, an error JSON
`{ error, detail?, routes? }`, or upstream text passed through. -/
inductive RespBody (μ : Type) where
  | empty
  | health (routes : List String)
  | errJson (error : String) (detail : Option String) (routes : Option (List String))
  | text (s : String)
deriving DecidableEq

/-- A worker response: status, body, and the headers the claims observe
(`X-Cache` and `Access-Control-Allow-Origin`, the latter set by `corsResponse`). -/
structure WorkerResponse (μ : Type) where
  status : Nat
  body : RespBody μ
  xCache : Option String := none
  allowOrigin : Option String := none
deriving DecidableEq

/-- `corsResponse(env, origin, response)`: decide the
`Access-Control-Allow-Origin` value (echo an allowlisted origin; otherwise,
declared or not, fall back to `allowedOrigins[0]`) and decorate the response. -/
def corsResponse (env : Env) (origin : String) (resp : WorkerResponse μ) :
    WorkerResponse μ :=
  let allowedOrigins := allowedOriginsFor env
  let acao :=
    if allowedOrigins.contains origin then origin
    else if origin = "" ∨ origin = "null" then allowedOrigins.headD ""
    else allowedOrigins.headD ""
  { resp with allowOrigin := some acao }

/-- The per-instance mutable state of the worker. -/
structure WorkerState where
  rateLimitMap : List (String × RateLimitEntry) := []
  responseCache : List (String × CacheEntry) := []
deriving DecidableEq

/-- An inbound request, at the granularity the worker reads it: method, split
URL (`url.pathname` and `url.search`), the `Origin` and `CF-Connecting-IP`
headers, and the outcome of `await request.json()` (`Except.error` models a
body that is not parseable as JSON, whose exception message is carried). -/
structure WorkerRequest (μ : Type) where
  method : String
  pathname : String
  search : String
  originHeader : Option String := none
  cfConnectingIP : Option String := none
  body : Except String (ChatBody μ) := Except.error ""

/-- The outcome of the single outbound `fetch` the worker may perform:
a response (status, text body, `Content-Type` header) or a thrown error. -/
inductive UpstreamOutcome where
  | ok (status : Nat) (respBody : String) (contentType : Option String)
  | err (msg : String)
deriving DecidableEq

/-- A record of an outbound call: a generic API proxy call (final URL, method,
request headers) or the anthropic call with its JSON payload. -/
inductive UpstreamCall (μ : Type) where
  | api (url : String) (method : String) (headers : List (String × String))
  | anthropic (payload : ForwardBody μ)
deriving DecidableEq

/-- The tail of the generic-route branch, from the `try` block on: build the
request headers, perform the upstream fetch (`oracle`), on success cache
eligible responses and answer with `X-Cache: MISS`, on a thrown error answer
502. -/
def proxyFetch (env : Env) (origin method pathname targetUrl cacheKey : String)
    (route : ApiRoute) (rlMap : List (String × RateLimitEntry))
    (cache : List (String × CacheEntry)) (now : Nat) (oracle : UpstreamOutcome) :
    WorkerResponse μ × WorkerState × List (UpstreamCall μ) :=
  let requestHeaders :=
    [ ("Accept", "application/json")
    , ("User-Agent", "CheevO-Decision-Intelligence/2.0") ]
    ++ (match route.addHeaders with
        | some f => f env
        | none => [])
  match oracle with
  | .err msg =>
    (corsResponse env origin
       { status := 502, body := .errJson "API request mislukt" (some msg) none },
     { rateLimitMap := rlMap, responseCache := cache },
     [.api targetUrl method requestHeaders])
  | .ok ustatus ubody uct =>
    let contentType := jsOrStr uct "application/json"
    let cache2 :=
      if method = "GET" ∧ (200 ≤ ustatus ∧ ustatus < 300)
          ∧ CACHEABLE_PREFIXES.any (fun p => jsStartsWith pathname p) = true then
        setCache now cache cacheKey ubody ustatus contentType
      else cache
    (corsResponse env origin
       { status := ustatus, body := .text ubody, xCache := some "MISS" },
     { rateLimitMap := rlMap, responseCache := cache2 },
     [.api targetUrl method requestHeaders])

/-- The worker's `fetch(request, env)` entry point, with `Date.now()`, the
mutable tables and the upstream outcome passed explicitly.  Returns the
response, the new state, and the list of outbound calls performed (empty or a
single call). -/
def workerFetch (env : Env) (request : WorkerRequest μ) (now : Nat)
    (st : WorkerState) (oracle : UpstreamOutcome) :
    WorkerResponse μ × WorkerState × List (UpstreamCall μ) :=
  let origin := (request.originHeader.getD "")
  if request.method = "OPTIONS" then
    (corsResponse env origin { status := 204, body := .empty }, st, [])
  else
    let clientIP := jsOrStr request.cfConnectingIP "unknown"
    let rl := checkRateLimit now clientIP st.rateLimitMap
    let st1 : WorkerState := { st with rateLimitMap := rl.2 }
    if rl.1 = false then
      (corsResponse env origin
         { status := 429
           body := .errJson "Rate limit overschreden. Probeer het over een minuut opnieuw."
             none none }, st1, [])
    else if request.pathname = "/" ∨ request.pathname = "/health" then
      (corsResponse env origin { status := 200, body := .health routesList }, st1, [])
    else if request.pathname = "/api/anthropic" ∧ request.method = "POST" then
      if envTruthy env.ANTHROPIC_API_KEY = false then
        (corsResponse env origin
           { status := 503
             body := .errJson "Anthropic API key niet geconfigureerd op server" none none },
         st1, [])
      else
        match request.body with
        | .error emsg =>
          (corsResponse env origin
             { status := 502, body := .errJson "Anthropic proxy mislukt" (some emsg) none },
           st1, [])
        | .ok body =>
          match body.messages with
          | some (.arr msgs) =>
            match oracle with
            | .ok ustatus ubody _ =>
              (corsResponse env origin { status := ustatus, body := .text ubody },
               st1, [.anthropic (anthropicForward body msgs)])
            | .err emsg =>
              (corsResponse env origin
                 { status := 502, body := .errJson "Anthropic proxy mislukt" (some emsg) none },
               st1, [.anthropic (anthropicForward body msgs)])
          | _ =>
            (corsResponse env origin
               { status := 400
                 body := .errJson "Ongeldig request: messages array vereist" none none },
             st1, [])
    else
      match API_ROUTES.find? (fun kv => jsStartsWith request.pathname kv.1) with
      | none =>
        (corsResponse env origin
           { status := 404, body := .errJson "Route niet gevonden" none (some routesList) },
         st1, [])
      | some kv =>
        let remainingPath := jsSliceFrom request.pathname kv.1.length
        let targetUrl0 := kv.2.target ++ remainingPath ++ request.search
        let targetUrl :=
          match kv.2.addKey with
          | some f => f targetUrl0 env
          | none => targetUrl0
        let cacheKey := request.pathname ++ request.search
        if request.method = "GET"
            ∧ CACHEABLE_PREFIXES.any (fun p => jsStartsWith request.pathname p) = true then
          match getCached now st1.responseCache cacheKey with
          | (some cached, cache2) =>
            (corsResponse env origin
               { status := cached.status, body := .text cached.body, xCache := some "HIT" },
             { st1 with responseCache := cache2 }, [])
          | (none, cache2) =>
            proxyFetch env origin request.method request.pathname targetUrl cacheKey kv.2
              st1.rateLimitMap cache2 now oracle
        else
          proxyFetch env origin request.method request.pathname targetUrl cacheKey kv.2
            st1.rateLimitMap st1.responseCache now oracle

/-- Test vector: an environment with only the Anthropic credential configured. -/
def envAnthropic : Env :=
  { ANTHROPIC_API_KEY := some "k" }

/-- Test vector: a chat body whose numeric fields are `0` and whose model is
the empty string — all JS-falsy though supplied — with three messages. -/
def bodyZeroes : ChatBody Nat :=
  { messages := some (.arr [1, 2, 3]), model := some "", max_tokens := some 0,
    temperature := some 0, system := none }

/-- Test vector: a POST to `/api/anthropic` carrying `bodyZeroes`. -/
def reqAnthropicZeroes : WorkerRequest Nat :=
  { method := "POST", pathname := "/api/anthropic", search := "",
    body := Except.ok bodyZeroes }

/-- Test vector: an OPTIONS request from client `1.2.3.4`. -/
def reqPreflight : WorkerRequest Nat :=
  { method := "OPTIONS", pathname := "/api/kbo/x", search := "",
    cfConnectingIP := some "1.2.3.4" }

/-- Test vector: a state in which client `1.2.3.4` has exhausted its window
quota (count 25 with the window still open at any `now ≤ 60000`). -/
def stExhausted : WorkerState :=
  { rateLimitMap := [("1.2.3.4", { count := 25, resetAt := 60000 })] }

/-- Test vector: a GET to a KBO company lookup path. -/
def reqKboCompany : WorkerRequest Nat :=
  { method := "GET", pathname := "/api/kbo/company/0123456789", search := "" }

/-- Test vector: a GET to a path matching no registered route. -/
def reqUnknown : WorkerRequest Nat :=
  { method := "GET", pathname := "/api/unknown", search := "" }

/-- Test vector: a cache entry that expired at time 3. -/
def entryExpired3 : CacheEntry :=
  { body := "b", status := 200, contentType := "ct", expiresAt := 3 }

/-- Test vector: a cache entry that expires at time 10. -/
def entryLive10 : CacheEntry :=
  { body := "c", status := 200, contentType := "ct", expiresAt := 10 }

/-- Iterated `checkRateLimit` calls of one client: run the limiter once per
time in the list, threading the table, and collect the admit decisions. -/
def rlCallSeq (ip : String) : List Nat → List (String × RateLimitEntry) →
    List Bool × List (String × RateLimitEntry)
  | [], m => ([], m)
  | t :: ts, m =>
    let r := checkRateLimit t ip m
    let rest := rlCallSeq ip ts r.2
    (r.1 :: rest.1, rest.2)

/-! ### Helper lemmas -/

/-- A string is truthy exactly when it is not the empty string. -/
theorem strTruthy_iff (s : String) : strTruthy s = true ↔ s ≠ "" := by
  cases s with
  | mk data =>
    cases data <;> simp [strTruthy, String.ext_iff]

/-- Reading back the key just written. -/
theorem mapGet_mapSet_self (m : List (String × α)) (k : String) (v : α) :
    mapGet (mapSet m k v) k = some v := by
  induction m with
  | nil => simp [mapGet, mapSet]
  | cons kv rest ih =>
    by_cases h : kv.1 = k
    · simp [mapSet, mapGet, h]
    · simp [mapSet, mapGet, h, ih]

/-- A binding surviving a filter is still found, with the same value. -/
theorem mapGet_filter (m : List (String × α)) (k : String) (p : String × α → Bool)
    (v : α) (hget : mapGet m k = some v) (hp : p (k, v) = true) :
    mapGet (m.filter p) k = some v := by
  induction m with
  | nil => simp [mapGet] at hget
  | cons kv rest ih =>
    unfold mapGet at hget
    by_cases h : kv.1 = k
    · rw [if_pos h] at hget
      have hv : kv.2 = v := by injection hget
      have hkv : kv = (k, v) := by
        cases kv; cases h; cases hv; rfl
      rw [hkv, List.filter_cons, if_pos hp]
      simp [mapGet]
    · rw [if_neg h] at hget
      rw [List.filter_cons]
      by_cases hpkv : p kv = true
      · rw [if_pos hpkv]
        unfold mapGet
        rw [if_neg h]
        exact ih hget
      · rw [if_neg hpkv]
        exact ih hget

/-- Mapping two pointwise-equal functions over a list gives the same list. -/
theorem list_map_ext (l : List α) (f g : α → β) (h : ∀ x ∈ l, f x = g x) :
    l.map f = l.map g := by
  induction l with
  | nil => rfl
  | cons a l ih =>
    simp only [List.map_cons, h a (by simp)]
    rw [ih (fun x hx => h x (by simp [hx]))]

/-- A `checkRateLimit` call inside the current window increments the count,
keeps `resetAt`, and admits exactly when the new count is within the maximum. -/
theorem checkRateLimit_inWindow (now : Nat) (ip : String)
    (m : List (String × RateLimitEntry)) (c R : Nat)
    (hget : mapGet m ip = some { count := c, resetAt := R }) (hin : now ≤ R) :
    (checkRateLimit now ip m).1 = decide (c + 1 ≤ RATE_LIMIT_MAX)
    ∧ mapGet (checkRateLimit now ip m).2 ip = some { count := c + 1, resetAt := R } := by
  have hngt : ¬ now > R := by omega
  unfold checkRateLimit
  simp only [hget, Option.getD_some, if_neg hngt]
  refine ⟨by simp, ?_⟩
  have hset := mapGet_mapSet_self m ip ({ count := c + 1, resetAt := R } : RateLimitEntry)
  split
  · exact mapGet_filter _ _ _ _ hset (by simpa using hngt)
  · exact hset

/-- A `checkRateLimit` call of a client with no entry creates the entry
`{count := 1, resetAt := now + RATE_LIMIT_WINDOW}` and admits. -/
theorem checkRateLimit_fresh (now : Nat) (ip : String)
    (m : List (String × RateLimitEntry)) (hget : mapGet m ip = none) :
    (checkRateLimit now ip m).1 = true
    ∧ mapGet (checkRateLimit now ip m).2 ip
        = some { count := 1, resetAt := now + RATE_LIMIT_WINDOW } := by
  have hngt : ¬ now > now + RATE_LIMIT_WINDOW := by omega
  unfold checkRateLimit
  simp only [hget, Option.getD_none, if_neg hngt]
  refine ⟨by simp [RATE_LIMIT_MAX], ?_⟩
  have hset := mapGet_mapSet_self m ip
    ({ count := 1, resetAt := now + RATE_LIMIT_WINDOW } : RateLimitEntry)
  split
  · exact mapGet_filter _ _ _ _ hset (by simpa using hngt)
  · exact hset

/-- A `checkRateLimit` call strictly after `resetAt` resets the window:
the entry becomes `{count := 1, resetAt := now + RATE_LIMIT_WINDOW}` and the
call is admitted whatever the previous count was. -/
theorem checkRateLimit_expired (now : Nat) (ip : String)
    (m : List (String × RateLimitEntry)) (e : RateLimitEntry)
    (hget : mapGet m ip = some e) (hgt : now > e.resetAt) :
    (checkRateLimit now ip m).1 = true
    ∧ mapGet (checkRateLimit now ip m).2 ip
        = some { count := 1, resetAt := now + RATE_LIMIT_WINDOW } := by
  have hngt : ¬ now > now + RATE_LIMIT_WINDOW := by omega
  unfold checkRateLimit
  simp only [hget, Option.getD_some, if_pos hgt]
  refine ⟨by simp [RATE_LIMIT_MAX], ?_⟩
  have hset := mapGet_mapSet_self m ip
    ({ count := 1, resetAt := now + RATE_LIMIT_WINDOW } : RateLimitEntry)
  split
  · exact mapGet_filter _ _ _ _ hset (by simpa using hngt)
  · exact hset

/-- Running a sequence of in-window calls from a live entry: the k-th call is
admitted exactly when it keeps the count within the maximum, and the entry
counts up without moving `resetAt`. -/
theorem rlCallSeq_loop (ip : String) (R : Nat) (ts : List Nat) :
    ∀ (m : List (String × RateLimitEntry)) (c : Nat),
      mapGet m ip = some { count := c, resetAt := R } →
      (∀ t ∈ ts, t ≤ R) →
      (rlCallSeq ip ts m).1
          = (List.range ts.length).map (fun i => decide (c + i + 1 ≤ RATE_LIMIT_MAX))
      ∧ mapGet (rlCallSeq ip ts m).2 ip = some { count := c + ts.length, resetAt := R } := by
  induction ts with
  | nil =>
    intro m c hget _
    simpa [rlCallSeq] using hget
  | cons t ts ih =>
    intro m c hget hts
    obtain ⟨h1, h2⟩ := checkRateLimit_inWindow t ip m c R hget (hts t (by simp))
    obtain ⟨h3, h4⟩ := ih (checkRateLimit t ip m).2 (c + 1) h2
      (fun u hu => hts u (by simp [hu]))
    unfold rlCallSeq
    constructor
    · simp only [h1, h3, List.length_cons, List.range_succ_eq_map, List.map_cons,
        List.map_map]
      refine congrArg₂ List.cons (by rw [Nat.add_zero]) ?_
      refine list_map_ext _ _ _ (fun i _ => ?_)
      have hc : c + 1 + i + 1 = c + (i + 1) + 1 := by omega
      simp only [Function.comp]
      rw [hc]
    · simpa [Nat.add_comm, Nat.add_assoc, Nat.add_left_comm] using h4

/-- The first allowlist entry is the fixed GitHub Pages origin, whatever the
environment adds at the end. -/
theorem allowedOriginsFor_headD (env : Env) :
    (allowedOriginsFor env).headD "" = "https://meyermansheidi.github.io" := by
  unfold allowedOriginsFor
  dsimp only
  split <;> rfl

/-- `corsResponse` echoes an allowlisted origin and falls back to the first
allowlist entry otherwise. -/
theorem corsResponse_allowOrigin (env : Env) (origin : String)
    (resp : WorkerResponse μ) :
    (corsResponse env origin resp).allowOrigin
      = some (if (allowedOriginsFor env).contains origin then origin
              else "https://meyermansheidi.github.io") := by
  unfold corsResponse
  dsimp only
  rw [ite_self, allowedOriginsFor_headD]

/-- `corsResponse` changes nothing but the `Access-Control-Allow-Origin` value. -/
theorem corsResponse_fields (env : Env) (origin : String) (resp : WorkerResponse μ) :
    (corsResponse env origin resp).status = resp.status
    ∧ (corsResponse env origin resp).body = resp.body
    ∧ (corsResponse env origin resp).xCache = resp.xCache := by
  unfold corsResponse
  exact ⟨rfl, rfl, rfl⟩

/-! ### Claim C2 -/

/-- C2: for one client identifier, with `WINDOW = 60000` ms and `MAX = 20`:
starting with no entry, a first call at `t0` followed by calls at times within
the created entry's window (`≤ t0 + WINDOW`) is admitted at position `k`
(0-based) exactly when `k + 1 ≤ 20`, so each of the first 20 calls is admitted
and the 21st and all later calls are denied; and a call at a time strictly
after a live entry's `resetAt` is admitted regardless of the stored count,
leaving the entry at `{count := 1, resetAt := now + WINDOW}`. -/
theorem claim2_rate_limiter :
    (∀ (m0 : List (String × RateLimitEntry)) (ip : String) (t0 : Nat) (ts : List Nat),
      mapGet m0 ip = none →
      (∀ t ∈ ts, t ≤ t0 + RATE_LIMIT_WINDOW) →
      (rlCallSeq ip (t0 :: ts) m0).1
        = (List.range (ts.length + 1)).map (fun k => decide (k + 1 ≤ RATE_LIMIT_MAX)))
    ∧ (∀ (m : List (String × RateLimitEntry)) (ip : String) (t : Nat) (e : RateLimitEntry),
      mapGet m ip = some e → t > e.resetAt →
      (checkRateLimit t ip m).1 = true
      ∧ mapGet (checkRateLimit t ip m).2 ip
          = some { count := 1, resetAt := t + RATE_LIMIT_WINDOW }) := by
  constructor
  · intro m0 ip t0 ts h0 hts
    obtain ⟨h1, h2⟩ := checkRateLimit_fresh t0 ip m0 h0
    obtain ⟨h3, _⟩ := rlCallSeq_loop ip (t0 + RATE_LIMIT_WINDOW) ts
      (checkRateLimit t0 ip m0).2 1 h2 hts
    unfold rlCallSeq
    simp only [h1, h3, List.length_cons, List.range_succ_eq_map, List.map_cons,
      List.map_map]
    refine congrArg₂ List.cons (by simp [RATE_LIMIT_MAX]) ?_
    refine list_map_ext _ _ _ (fun i _ => ?_)
    have hc : 1 + i + 1 = i + 1 + 1 := by omega
    simp only [Function.comp]
    rw [hc]
  · intro m ip t e hget hgt
    exact checkRateLimit_expired t ip m e hget hgt

/-- C2 witness: 21 calls at time 0 from a fresh table are admitted 20 times
then denied, and a call at time 6 on an entry with `resetAt = 5`, `count = 7`
is admitted with the entry reset. -/
theorem claim2_witness :
    (rlCallSeq "1.2.3.4" (0 :: List.replicate 20 0) []).1
      = (List.range 21).map (fun k => decide (k + 1 ≤ RATE_LIMIT_MAX))
    ∧ ((checkRateLimit 6 "a" [("a", { count := 7, resetAt := 5 })]).1 = true
       ∧ mapGet (checkRateLimit 6 "a" [("a", { count := 7, resetAt := 5 })]).2 "a"
           = some { count := 1, resetAt := 6 + RATE_LIMIT_WINDOW }) :=
  ⟨claim2_rate_limiter.1 [] "1.2.3.4" 0 (List.replicate 20 0) rfl (by decide),
   claim2_rate_limiter.2 [("a", { count := 7, resetAt := 5 })] "a" 6
     { count := 7, resetAt := 5 } rfl (by decide)⟩

/-! ### Claim C3 -/

/-- C3: every response the worker produces — success, error and the 204
preflight alike — carries `Access-Control-Allow-Origin` equal to the request's
`Origin` value when that value is in the allowlist (the four fixed origins
plus `env.ALLOWED_ORIGIN` when configured), and otherwise equal to the first
allowlist entry `https://meyermansheidi.github.io`, both when `Origin` is
absent (modelled as the empty string, as in the source's `|| ''`) or `"null"`
and when it is present but unrecognized. -/
theorem claim3_cors_header (env : Env) (req : WorkerRequest μ) (now : Nat)
    (st : WorkerState) (oracle : UpstreamOutcome) :
    (workerFetch env req now st oracle).1.allowOrigin
      = some (if (allowedOriginsFor env).contains (req.originHeader.getD "") then
                req.originHeader.getD ""
              else "https://meyermansheidi.github.io") := by
  unfold workerFetch proxyFetch
  dsimp only
  generalize hX : some (if (allowedOriginsFor env).contains (req.originHeader.getD "") then
      req.originHeader.getD "" else "https://meyermansheidi.github.io") = X
  repeat' split
  all_goals dsimp only
  all_goals rw [corsResponse_allowOrigin]
  all_goals exact hX

/-! ### Claim C4 -/

/-- C4: a cache read returns an entry only when `now` is strictly before its
`expiresAt`; a read that finds an entry with `expiresAt ≤ now` deletes it from
the table and returns absent, so no expired entry is ever served. -/
theorem claim4_cache_expiry (now : Nat) (cache : List (String × CacheEntry))
    (key : String) :
    (∀ e, (getCached now cache key).1 = some e → now < e.expiresAt)
    ∧ (∀ e, mapGet cache key = some e → e.expiresAt ≤ now →
        (getCached now cache key).1 = none
        ∧ (getCached now cache key).2 = mapDelete cache key) := by
  constructor
  · intro e he
    unfold getCached at he
    cases hg : mapGet cache key with
    | none => rw [hg] at he; simp at he
    | some e0 =>
      rw [hg] at he
      dsimp only at he
      by_cases hlt : now < e0.expiresAt
      · rw [if_pos hlt] at he
        have h2 : e0 = e := by injection he
        rw [← h2]
        exact hlt
      · rw [if_neg hlt] at he
        simp at he
  · intro e he hle
    have hnlt : ¬ now < e.expiresAt := by omega
    unfold getCached
    rw [he]
    dsimp only
    rw [if_neg hnlt]
    exact ⟨rfl, rfl⟩

/-- C4 witness: at time 5, reading key `"k"` finds the entry expired at 3,
deletes it and returns absent; and a hit on an entry expiring at 10 implies
`5 < 10`. -/
theorem claim4_witness :
    ((getCached 5 [("k", entryExpired3)] "k").1 = none
     ∧ (getCached 5 [("k", entryExpired3)] "k").2
         = mapDelete [("k", entryExpired3)] "k")
    ∧ 5 < entryLive10.expiresAt :=
  ⟨(claim4_cache_expiry 5 [("k", entryExpired3)] "k").2 entryExpired3
      rfl (by decide),
   (claim4_cache_expiry 5 [("k", entryLive10)] "k").1 entryLive10 rfl⟩

/-! ### Claim C9 -/

/-- C9: every OPTIONS request receives a 204 response decorated with the CORS
headers before the rate limiter runs: the state (in particular the rate-limit
table) is untouched, no upstream call is made, and this holds whatever the
client's current quota. -/
theorem claim9_preflight (env : Env) (req : WorkerRequest μ) (now : Nat)
    (st : WorkerState) (oracle : UpstreamOutcome)
    (h : req.method = "OPTIONS") :
    (workerFetch env req now st oracle).1.status = 204
    ∧ (workerFetch env req now st oracle).1.allowOrigin ≠ none
    ∧ (workerFetch env req now st oracle).2.1 = st
    ∧ (workerFetch env req now st oracle).2.2 = [] := by
  unfold workerFetch
  rw [if_pos h]
  refine ⟨(corsResponse_fields _ _ _).1, ?_, rfl, rfl⟩
  rw [corsResponse_allowOrigin]
  simp

/-- C9 witness: an OPTIONS request from a client whose window quota is already
exhausted (count 25 ≥ 20) still gets 204 and leaves the table untouched. -/
theorem claim9_witness :
    (workerFetch {} reqPreflight 0 stExhausted (.ok 200 "r" none)).1.status = 204
    ∧ (workerFetch {} reqPreflight 0 stExhausted (.ok 200 "r" none)).2.1
        = stExhausted := by
  have h := claim9_preflight ({} : Env) reqPreflight 0 stExhausted
    (.ok 200 "r" none) rfl
  exact ⟨h.1, h.2.2.1⟩

/-! ### Claim C6 -/

/-- C6: a POST to `/api/anthropic` (admitted by the rate limiter, which per
the pipeline runs first) with the server-side Anthropic credential not
configured is answered 503 with the credential error, with no upstream call,
and before the request body is parsed: the response is the same whatever the
body parse outcome. -/
theorem claim6_missing_credential (env : Env) (req : WorkerRequest μ) (now : Nat)
    (st : WorkerState) (oracle : UpstreamOutcome)
    (hm : req.method = "POST") (hp : req.pathname = "/api/anthropic")
    (hrl : (checkRateLimit now (jsOrStr req.cfConnectingIP "unknown") st.rateLimitMap).1
        = true)
    (hkey : envTruthy env.ANTHROPIC_API_KEY = false) :
    (workerFetch env req now st oracle).1.status = 503
    ∧ (workerFetch env req now st oracle).1.body
        = RespBody.errJson "Anthropic API key niet geconfigureerd op server" none none
    ∧ (workerFetch env req now st oracle).2.2 = []
    ∧ ∀ pb, workerFetch env { req with body := pb } now st oracle
        = workerFetch env req now st oracle := by
  unfold workerFetch
  simp [hm, hp, hrl, hkey, corsResponse]

/-- C6 witness: POST `/api/anthropic` with an empty environment gets 503 with
no upstream call, independently of the body. -/
theorem claim6_witness :
    (workerFetch ({} : Env) reqAnthropicZeroes 0 {} (.ok 200 "r" none)).1.status = 503
    ∧ (workerFetch ({} : Env) reqAnthropicZeroes 0 {} (.ok 200 "r" none)).2.2 = []
    ∧ workerFetch ({} : Env) { reqAnthropicZeroes with body := Except.error "boom" }
        0 {} (.ok 200 "r" none)
      = workerFetch ({} : Env) reqAnthropicZeroes 0 {} (.ok 200 "r" none) := by
  have h := claim6_missing_credential ({} : Env) reqAnthropicZeroes 0 {}
    (.ok 200 "r" none) rfl rfl rfl rfl
  exact ⟨h.1, h.2.2.1, h.2.2.2 (Except.error "boom")⟩

/-! ### Claim C7 -/

/-- C7: a POST to `/api/anthropic` (admitted, credential configured) whose
parsed body lacks a `messages` field or whose `messages` field is not an
array is answered 400 with the invalid-request error, with no upstream call. -/
theorem claim7_invalid_messages (env : Env) (req : WorkerRequest μ) (now : Nat)
    (st : WorkerState) (oracle : UpstreamOutcome) (b : ChatBody μ)
    (hm : req.method = "POST") (hp : req.pathname = "/api/anthropic")
    (hrl : (checkRateLimit now (jsOrStr req.cfConnectingIP "unknown") st.rateLimitMap).1
        = true)
    (hkey : envTruthy env.ANTHROPIC_API_KEY = true)
    (hb : req.body = Except.ok b)
    (hmsg : b.messages = none ∨ ∃ tr, b.messages = some (MessagesField.notArr tr)) :
    (workerFetch env req now st oracle).1.status = 400
    ∧ (workerFetch env req now st oracle).1.body
        = RespBody.errJson "Ongeldig request: messages array vereist" none none
    ∧ (workerFetch env req now st oracle).2.2 = [] := by
  unfold workerFetch
  rcases hmsg with h | ⟨tr, h⟩ <;>
    simp [hm, hp, hrl, hkey, hb, h, corsResponse]

/-- C7 witness: a parsed body whose `messages` field is a truthy non-array
gets 400 with no upstream call. -/
theorem claim7_witness :
    (workerFetch envAnthropic
       ({ reqAnthropicZeroes with
           body := Except.ok { messages := some (MessagesField.notArr true) } }
         : WorkerRequest Nat)
       0 {} (.ok 200 "r" none)).1.status = 400
    ∧ (workerFetch envAnthropic
       ({ reqAnthropicZeroes with
           body := Except.ok { messages := some (MessagesField.notArr true) } }
         : WorkerRequest Nat)
       0 {} (.ok 200 "r" none)).2.2 = [] := by
  have h := claim7_invalid_messages envAnthropic
    ({ reqAnthropicZeroes with
        body := Except.ok { messages := some (MessagesField.notArr true) } }
      : WorkerRequest Nat)
    0 {} (.ok 200 "r" none) { messages := some (MessagesField.notArr true) }
    rfl rfl rfl rfl rfl (Or.inr ⟨true, rfl⟩)
  exact ⟨h.1, h.2.2⟩

/-! ### Claim C10 -/

/-- C10: a POST to `/api/anthropic` (admitted, credential configured) whose
body is not parseable as JSON is answered 502 — not 400 — with error
`Anthropic proxy mislukt` and the parse failure message as `detail`, and no
upstream call is made. -/
theorem claim10_parse_failure (env : Env) (req : WorkerRequest μ) (now : Nat)
    (st : WorkerState) (oracle : UpstreamOutcome) (emsg : String)
    (hm : req.method = "POST") (hp : req.pathname = "/api/anthropic")
    (hrl : (checkRateLimit now (jsOrStr req.cfConnectingIP "unknown") st.rateLimitMap).1
        = true)
    (hkey : envTruthy env.ANTHROPIC_API_KEY = true)
    (hb : req.body = Except.error emsg) :
    (workerFetch env req now st oracle).1.status = 502
    ∧ (workerFetch env req now st oracle).1.body
        = RespBody.errJson "Anthropic proxy mislukt" (some emsg) none
    ∧ ¬ (workerFetch env req now st oracle).1.status = 400
    ∧ (workerFetch env req now st oracle).2.2 = [] := by
  unfold workerFetch
  simp [hm, hp, hrl, hkey, hb, corsResponse]

/-- C10 witness: an unparseable body with message `bad json` gets a 502 with
that message as detail and no upstream call. -/
theorem claim10_witness :
    (workerFetch envAnthropic
       ({ reqAnthropicZeroes with body := Except.error "bad json" }
         : WorkerRequest Nat)
       0 {} (.ok 200 "r" none)).1.status = 502
    ∧ (workerFetch envAnthropic
       ({ reqAnthropicZeroes with body := Except.error "bad json" }
         : WorkerRequest Nat)
       0 {} (.ok 200 "r" none)).1.body
        = RespBody.errJson "Anthropic proxy mislukt" (some "bad json") none := by
  have h := claim10_parse_failure envAnthropic
    ({ reqAnthropicZeroes with body := Except.error "bad json" }
      : WorkerRequest Nat)
    0 {} (.ok 200 "r" none) "bad json" rfl rfl rfl rfl rfl
  exact ⟨h.1, h.2.1⟩

/-! ### Claim C1 -/

/-- C1 counterexample: for the POST `/api/anthropic` request carrying
`bodyZeroes` (credential configured, `messages` an array, `max_tokens`
supplied as `0`, `temperature` supplied as `0`, `model` supplied as `""`),
the body forwarded upstream has `max_tokens = 2048`, not
`min 0 4096 = 0` as the claim requires for a supplied `max_tokens`;
`temperature = 0.7`, not `min 0 1 = 0`; and the fixed default model, not the
supplied `""` — the `||`-defaults also replace supplied falsy values. -/
theorem claim1_counterexample :
    (workerFetch envAnthropic reqAnthropicZeroes 0 {} (.ok 200 "resp" none)).2.2
      = [UpstreamCall.anthropic (anthropicForward bodyZeroes [1, 2, 3])]
    ∧ (anthropicForward bodyZeroes [1, 2, 3]).max_tokens = 2048
    ∧ ¬ (anthropicForward bodyZeroes [1, 2, 3]).max_tokens = min 0 4096
    ∧ (anthropicForward bodyZeroes [1, 2, 3]).temperature = mkRat 7 10
    ∧ ¬ (anthropicForward bodyZeroes [1, 2, 3]).temperature = min 0 1
    ∧ (anthropicForward bodyZeroes [1, 2, 3]).model = "claude-sonnet-4-5-20250929"
    ∧ ¬ (anthropicForward bodyZeroes [1, 2, 3]).model = "" := by
  decide

/-- C1 (amended): for every admitted POST to `/api/anthropic` with the
credential configured and a body whose `messages` field is an array, exactly
one upstream call is made, whose body has: `max_tokens = min(requested, 4096)`
when `max_tokens` is supplied and nonzero and `2048` when it is unset or `0`;
`temperature = min(requested, 1.0)` when supplied and nonzero and `0.7` when
unset or `0`; the `messages` sequence truncated to its first 10 entries; the
supplied model when nonempty and the fixed default otherwise; and the supplied
`system` when nonempty and the empty string otherwise. -/
theorem claim1_forward (env : Env) (req : WorkerRequest μ) (now : Nat)
    (st : WorkerState) (oracle : UpstreamOutcome) (b : ChatBody μ) (msgs : List μ)
    (hm : req.method = "POST") (hp : req.pathname = "/api/anthropic")
    (hrl : (checkRateLimit now (jsOrStr req.cfConnectingIP "unknown") st.rateLimitMap).1
        = true)
    (hkey : envTruthy env.ANTHROPIC_API_KEY = true)
    (hb : req.body = Except.ok b)
    (hmsgs : b.messages = some (MessagesField.arr msgs)) :
    (workerFetch env req now st oracle).2.2
        = [UpstreamCall.anthropic (anthropicForward b msgs)]
    ∧ (anthropicForward b msgs).messages = msgs.take 10
    ∧ (∀ q, b.max_tokens = some q → q ≠ 0 →
        (anthropicForward b msgs).max_tokens = min q 4096)
    ∧ ((b.max_tokens = none ∨ b.max_tokens = some 0) →
        (anthropicForward b msgs).max_tokens = 2048)
    ∧ (∀ q, b.temperature = some q → q ≠ 0 →
        (anthropicForward b msgs).temperature = min q 1)
    ∧ ((b.temperature = none ∨ b.temperature = some 0) →
        (anthropicForward b msgs).temperature = mkRat 7 10)
    ∧ (∀ s, b.model = some s → s ≠ "" → (anthropicForward b msgs).model = s)
    ∧ ((b.model = none ∨ b.model = some "") →
        (anthropicForward b msgs).model = "claude-sonnet-4-5-20250929")
    ∧ (∀ s, b.system = some s → s ≠ "" → (anthropicForward b msgs).system = s)
    ∧ ((b.system = none ∨ b.system = some "") →
        (anthropicForward b msgs).system = "") := by
  have h2048 : min (2048 : Rat) 4096 = 2048 := by decide
  have h07 : min (mkRat 7 10) 1 = mkRat 7 10 := by decide
  refine ⟨?_, rfl, ?_, ?_, ?_, ?_, ?_, ?_, ?_, ?_⟩
  · unfold workerFetch
    cases oracle <;> simp [hm, hp, hrl, hkey, hb, hmsgs]
  · intro q hq hne
    simp [anthropicForward, jsOrNum, hq, hne]
  · intro h
    rcases h with h | h <;> simp [anthropicForward, jsOrNum, h, h2048]
  · intro q hq hne
    simp [anthropicForward, jsOrNum, hq, hne]
  · intro h
    rcases h with h | h <;> simp [anthropicForward, jsOrNum, h, h07]
  · intro s hs hne
    simp [anthropicForward, jsOrStr, hs, (strTruthy_iff s).mpr hne]
  · intro h
    rcases h with h | h <;> simp [anthropicForward, jsOrStr, h, strTruthy]
  · intro s hs hne
    simp [anthropicForward, jsOrStr, hs, (strTruthy_iff s).mpr hne]
  · intro h
    rcases h with h | h <;> simp [anthropicForward, jsOrStr, h, strTruthy]

/-- C1 witness: the amended theorem applied to `bodyZeroes`: the single
upstream call carries the transformed body. -/
theorem claim1_witness :
    (workerFetch envAnthropic reqAnthropicZeroes 0 {} (.ok 200 "resp" none)).2.2
        = [UpstreamCall.anthropic (anthropicForward bodyZeroes [1, 2, 3])]
    ∧ (anthropicForward bodyZeroes [1, 2, 3]).max_tokens = 2048 :=
  ⟨(claim1_forward envAnthropic reqAnthropicZeroes 0 {} (.ok 200 "resp" none)
      bodyZeroes [1, 2, 3] rfl rfl rfl rfl rfl rfl).1,
   (claim1_forward envAnthropic reqAnthropicZeroes 0 {} (.ok 200 "resp" none)
      bodyZeroes [1, 2, 3] rfl rfl rfl rfl rfl rfl).2.2.2.1 (Or.inr rfl)⟩

/-! ### Claim C8 -/

/-- C8 counterexample: `POST /api/anthropic` is a non-OPTIONS, non-health
request whose path matches no registered prefix, yet the worker answers it
503 (here: credential unconfigured), not the claimed 404 with the route
list — the chat-completion branch runs before generic route matching. -/
theorem claim8_counterexample :
    (API_ROUTES.find? (fun kv => jsStartsWith reqAnthropicZeroes.pathname kv.1)).isNone
        = true
    ∧ reqAnthropicZeroes.method ≠ "OPTIONS"
    ∧ reqAnthropicZeroes.pathname ≠ "/"
    ∧ reqAnthropicZeroes.pathname ≠ "/health"
    ∧ (workerFetch ({} : Env) reqAnthropicZeroes 0 {} (.ok 200 "r" none)).1.status = 503
    ∧ ¬ (workerFetch ({} : Env) reqAnthropicZeroes 0 {} (.ok 200 "r" none)).1.status
        = 404 := by
  decide

/-- C8 (amended): for every admitted non-OPTIONS request (non-health follows)
whose path starts with a registered prefix and which is not served from the
response cache, the dispatcher selects that route and performs one upstream
call to `targetBase + (requestPath with the prefix stripped) +
originalQueryString`, with the route's credential injection applied to that
URL (the identity for `/api/kbo`); and every admitted non-OPTIONS, non-health
request matching no registered prefix — excepting `POST /api/anthropic`,
which the chat-completion branch handles first — gets a 404 whose body lists
the valid routes, with no upstream call. -/
theorem claim8_routing (μ : Type) :
    (∀ (env : Env) (req : WorkerRequest μ) (now : Nat) (st : WorkerState)
       (oracle : UpstreamOutcome) (kv : String × ApiRoute),
      req.method ≠ "OPTIONS" →
      (checkRateLimit now (jsOrStr req.cfConnectingIP "unknown") st.rateLimitMap).1
          = true →
      API_ROUTES.find? (fun x => jsStartsWith req.pathname x.1) = some kv →
      ((req.method = "GET"
          ∧ CACHEABLE_PREFIXES.any (fun p => jsStartsWith req.pathname p) = true) →
        (getCached now st.responseCache (req.pathname ++ req.search)).1 = none) →
      ∃ hs, (workerFetch env req now st oracle).2.2
        = [UpstreamCall.api
            (match kv.2.addKey with
             | some f => f (kv.2.target ++ jsSliceFrom req.pathname kv.1.length
                 ++ req.search) env
             | none => kv.2.target ++ jsSliceFrom req.pathname kv.1.length ++ req.search)
            req.method hs])
    ∧ (∀ (env : Env) (req : WorkerRequest μ) (now : Nat) (st : WorkerState)
       (oracle : UpstreamOutcome),
      req.method ≠ "OPTIONS" →
      (checkRateLimit now (jsOrStr req.cfConnectingIP "unknown") st.rateLimitMap).1
          = true →
      req.pathname ≠ "/" → req.pathname ≠ "/health" →
      ¬ (req.pathname = "/api/anthropic" ∧ req.method = "POST") →
      API_ROUTES.find? (fun x => jsStartsWith req.pathname x.1) = none →
      (workerFetch env req now st oracle).1.status = 404
      ∧ (workerFetch env req now st oracle).1.body
          = RespBody.errJson "Route niet gevonden" none (some routesList)
      ∧ (workerFetch env req now st oracle).2.2 = []) := by
  constructor
  · intro env req now st oracle kv hopt hrl hfind hnc
    have hpred : jsStartsWith req.pathname kv.1 = true := by
      have h := List.find?_some hfind
      simpa using h
    have hmem : kv ∈ API_ROUTES := List.mem_of_find?_eq_some hfind
    simp only [API_ROUTES, List.mem_cons, List.not_mem_nil, or_false] at hmem
    have hfacts : req.pathname ≠ "/" ∧ req.pathname ≠ "/health"
        ∧ ¬ (req.pathname = "/api/anthropic" ∧ req.method = "POST") := by
      rcases hmem with h | h | h <;>
        (rw [h] at hpred
         refine ⟨?_, ?_, ?_⟩
         · intro hq; rw [hq] at hpred; exact absurd hpred (by decide)
         · intro hq; rw [hq] at hpred; exact absurd hpred (by decide)
         · rintro ⟨hq, _⟩; rw [hq] at hpred; exact absurd hpred (by decide))
    obtain ⟨h1, h2, h3⟩ := hfacts
    have hrl' : ¬ ((checkRateLimit now (jsOrStr req.cfConnectingIP "unknown")
        st.rateLimitMap).1 = false) := by simp [hrl]
    have hor : ¬ (req.pathname = "/" ∨ req.pathname = "/health") := by
      simp [h1, h2]
    unfold workerFetch
    dsimp only
    rw [if_neg hopt, if_neg hrl', if_neg hor, if_neg h3, hfind]
    dsimp only
    by_cases hc : req.method = "GET"
        ∧ CACHEABLE_PREFIXES.any (fun p => jsStartsWith req.pathname p) = true
    · rw [if_pos hc]
      have hn := hnc hc
      rcases hget : getCached now st.responseCache (req.pathname ++ req.search)
        with ⟨p1, p2⟩
      rw [hget] at hn
      dsimp only at hn
      subst hn
      dsimp only
      unfold proxyFetch
      cases oracle <;> exact ⟨_, rfl⟩
    · rw [if_neg hc]
      unfold proxyFetch
      cases oracle <;> exact ⟨_, rfl⟩
  · intro env req now st oracle hopt hrl h1 h2 h3 hfind
    have hrl' : ¬ ((checkRateLimit now (jsOrStr req.cfConnectingIP "unknown")
        st.rateLimitMap).1 = false) := by simp [hrl]
    have hor : ¬ (req.pathname = "/" ∨ req.pathname = "/health") := by
      simp [h1, h2]
    unfold workerFetch
    dsimp only
    rw [if_neg hopt, if_neg hrl', if_neg hor, if_neg h3, hfind]
    dsimp only
    exact ⟨(corsResponse_fields _ _ _).1, (corsResponse_fields _ _ _).2.1, rfl⟩

/-- C8 witness: `GET /api/kbo/company/0123456789` produces one upstream call
to `https://cbeapi.be/api/company/0123456789`, and `GET /api/unknown` gets a
404 listing the four routes with no upstream call. -/
theorem claim8_witness :
    (∃ hs, (workerFetch ({} : Env) reqKboCompany 0 {} (.ok 200 "r" none)).2.2
        = [UpstreamCall.api "https://cbeapi.be/api/company/0123456789" "GET" hs])
    ∧ (workerFetch ({} : Env) reqUnknown 0 {} (.ok 200 "r" none)).1.status = 404
    ∧ (workerFetch ({} : Env) reqUnknown 0 {} (.ok 200 "r" none)).1.body
        = RespBody.errJson "Route niet gevonden" none (some routesList)
    ∧ (workerFetch ({} : Env) reqUnknown 0 {} (.ok 200 "r" none)).2.2 = [] := by
  constructor
  · obtain ⟨hs, h⟩ := (claim8_routing Nat).1 {} reqKboCompany 0 {}
      (.ok 200 "r" none) ("/api/kbo", kboRoute) (by decide) rfl rfl
      (fun _ => rfl)
    refine ⟨hs, ?_⟩
    rw [h]
    rfl
  · have h := (claim8_routing Nat).2 {} reqUnknown 0 {} (.ok 200 "r" none)
      (by decide) rfl (by decide) (by decide) (by decide) rfl
    exact h

/-! ### Claim C5 -/

/-- A path that starts with a registered route prefix is none of the
specially-handled paths. -/
theorem routePrefix_path_facts (p : String) (kv : String × ApiRoute)
    (hmem : kv ∈ API_ROUTES) (hpred : jsStartsWith p kv.1 = true) :
    p ≠ "/" ∧ p ≠ "/health" ∧ p ≠ "/api/anthropic" := by
  simp only [API_ROUTES, List.mem_cons, List.not_mem_nil, or_false] at hmem
  rcases hmem with h | h | h <;>
    (rw [h] at hpred
     refine ⟨?_, ?_, ?_⟩ <;>
       (intro hq; rw [hq] at hpred; exact absurd hpred (by decide)))

/-- A path starting with `/api/kbo` resolves to the KBO route and satisfies
the cacheable-prefix test. -/
theorem kbo_route_facts (p : String) (hkbo : jsStartsWith p "/api/kbo" = true) :
    API_ROUTES.find? (fun x => jsStartsWith p x.1) = some ("/api/kbo", kboRoute)
    ∧ CACHEABLE_PREFIXES.any (fun q => jsStartsWith p q) = true := by
  constructor
  · simp [API_ROUTES, List.find?_cons, hkbo]
  · simp [CACHEABLE_PREFIXES, hkbo]

/-- C5: an upstream response is written to the response cache exactly when
the inbound method is GET, the path starts with a cacheable prefix
(`/api/kbo`), and the upstream status is 2xx; and cacheable-route responses
carry `X-Cache: HIT` when served from the cache and `X-Cache: MISS` when
fetched upstream.  Spelled out: (1) on a GET to a cacheable path whose cache
probe misses, a 2xx upstream response is stored (with TTL stamp via
`setCache`) and a non-2xx one is not, the response carrying `MISS` and the
upstream status; (2) a probe hit is served from the cache with `HIT` and no
upstream call; (3) a POST to a cacheable path never writes the cache though
its upstream response carries `MISS`; (4) a matched route that is not
cacheable never writes the cache; (5) the `/api/anthropic` POST branch never
writes the cache. -/
theorem claim5_cache_policy (μ : Type) :
    (∀ (env : Env) (req : WorkerRequest μ) (now : Nat) (st : WorkerState)
       (s : Nat) (ubody : String) (uct : Option String)
       (cache2 : List (String × CacheEntry)),
      req.method = "GET" →
      jsStartsWith req.pathname "/api/kbo" = true →
      (checkRateLimit now (jsOrStr req.cfConnectingIP "unknown") st.rateLimitMap).1
          = true →
      getCached now st.responseCache (req.pathname ++ req.search) = (none, cache2) →
      ((200 ≤ s ∧ s < 300 →
        (workerFetch env req now st (.ok s ubody uct)).2.1.responseCache
          = setCache now cache2 (req.pathname ++ req.search) ubody s
              (jsOrStr uct "application/json"))
       ∧ (¬ (200 ≤ s ∧ s < 300) →
        (workerFetch env req now st (.ok s ubody uct)).2.1.responseCache = cache2)
       ∧ (workerFetch env req now st (.ok s ubody uct)).1.xCache = some "MISS"
       ∧ (workerFetch env req now st (.ok s ubody uct)).1.status = s))
    ∧ (∀ (env : Env) (req : WorkerRequest μ) (now : Nat) (st : WorkerState)
       (oracle : UpstreamOutcome) (e : CacheEntry)
       (cache2 : List (String × CacheEntry)),
      req.method = "GET" →
      jsStartsWith req.pathname "/api/kbo" = true →
      (checkRateLimit now (jsOrStr req.cfConnectingIP "unknown") st.rateLimitMap).1
          = true →
      getCached now st.responseCache (req.pathname ++ req.search) = (some e, cache2) →
      ((workerFetch env req now st oracle).1.xCache = some "HIT"
       ∧ (workerFetch env req now st oracle).1.status = e.status
       ∧ (workerFetch env req now st oracle).2.1.responseCache = cache2
       ∧ (workerFetch env req now st oracle).2.2 = []))
    ∧ (∀ (env : Env) (req : WorkerRequest μ) (now : Nat) (st : WorkerState)
       (oracle : UpstreamOutcome),
      req.method = "POST" →
      jsStartsWith req.pathname "/api/kbo" = true →
      (checkRateLimit now (jsOrStr req.cfConnectingIP "unknown") st.rateLimitMap).1
          = true →
      ((workerFetch env req now st oracle).2.1.responseCache = st.responseCache
       ∧ ∀ (s : Nat) (ubody : String) (uct : Option String),
          (workerFetch env req now st (.ok s ubody uct)).1.xCache = some "MISS"))
    ∧ (∀ (env : Env) (req : WorkerRequest μ) (now : Nat) (st : WorkerState)
       (oracle : UpstreamOutcome) (kv : String × ApiRoute),
      req.method ≠ "OPTIONS" →
      (checkRateLimit now (jsOrStr req.cfConnectingIP "unknown") st.rateLimitMap).1
          = true →
      API_ROUTES.find? (fun x => jsStartsWith req.pathname x.1) = some kv →
      CACHEABLE_PREFIXES.any (fun p => jsStartsWith req.pathname p) = false →
      (workerFetch env req now st oracle).2.1.responseCache = st.responseCache)
    ∧ (∀ (env : Env) (req : WorkerRequest μ) (now : Nat) (st : WorkerState)
       (oracle : UpstreamOutcome),
      req.pathname = "/api/anthropic" → req.method = "POST" →
      (workerFetch env req now st oracle).2.1.responseCache = st.responseCache) := by
  refine ⟨?_, ?_, ?_, ?_, ?_⟩
  · intro env req now st s ubody uct cache2 hG hkbo hrl hprobe
    obtain ⟨hfind, hany⟩ := kbo_route_facts req.pathname hkbo
    obtain ⟨h1, h2, h3⟩ := routePrefix_path_facts req.pathname ("/api/kbo", kboRoute)
      (by simp [API_ROUTES]) hkbo
    have hopt' : ¬ req.method = "OPTIONS" := by rw [hG]; decide
    have hrl' : ¬ ((checkRateLimit now (jsOrStr req.cfConnectingIP "unknown")
        st.rateLimitMap).1 = false) := by simp [hrl]
    have hor : ¬ (req.pathname = "/" ∨ req.pathname = "/health") := by simp [h1, h2]
    have hna : ¬ (req.pathname = "/api/anthropic" ∧ req.method = "POST") := by
      rintro ⟨hq, _⟩; exact h3 hq
    unfold workerFetch
    dsimp only
    rw [if_neg hopt', if_neg hrl', if_neg hor, if_neg hna, hfind]
    dsimp only
    rw [if_pos ⟨hG, hany⟩, hprobe]
    dsimp only
    unfold proxyFetch
    dsimp only
    refine ⟨?_, ?_, (corsResponse_fields _ _ _).2.2, (corsResponse_fields _ _ _).1⟩
    · intro h2xx
      rw [if_pos ⟨hG, h2xx, hany⟩]
    · intro h2xx
      rw [if_neg (fun hcond => h2xx hcond.2.1)]
  · intro env req now st oracle e cache2 hG hkbo hrl hprobe
    obtain ⟨hfind, hany⟩ := kbo_route_facts req.pathname hkbo
    obtain ⟨h1, h2, h3⟩ := routePrefix_path_facts req.pathname ("/api/kbo", kboRoute)
      (by simp [API_ROUTES]) hkbo
    have hopt' : ¬ req.method = "OPTIONS" := by rw [hG]; decide
    have hrl' : ¬ ((checkRateLimit now (jsOrStr req.cfConnectingIP "unknown")
        st.rateLimitMap).1 = false) := by simp [hrl]
    have hor : ¬ (req.pathname = "/" ∨ req.pathname = "/health") := by simp [h1, h2]
    have hna : ¬ (req.pathname = "/api/anthropic" ∧ req.method = "POST") := by
      rintro ⟨hq, _⟩; exact h3 hq
    unfold workerFetch
    dsimp only
    rw [if_neg hopt', if_neg hrl', if_neg hor, if_neg hna, hfind]
    dsimp only
    rw [if_pos ⟨hG, hany⟩, hprobe]
    dsimp only
    exact ⟨(corsResponse_fields _ _ _).2.2, (corsResponse_fields _ _ _).1, rfl, rfl⟩
  · intro env req now st oracle hP hkbo hrl
    obtain ⟨hfind, hany⟩ := kbo_route_facts req.pathname hkbo
    obtain ⟨h1, h2, h3⟩ := routePrefix_path_facts req.pathname ("/api/kbo", kboRoute)
      (by simp [API_ROUTES]) hkbo
    have hopt' : ¬ req.method = "OPTIONS" := by rw [hP]; decide
    have hrl' : ¬ ((checkRateLimit now (jsOrStr req.cfConnectingIP "unknown")
        st.rateLimitMap).1 = false) := by simp [hrl]
    have hor : ¬ (req.pathname = "/" ∨ req.pathname = "/health") := by simp [h1, h2]
    have hna : ¬ (req.pathname = "/api/anthropic" ∧ req.method = "POST") := by
      rintro ⟨hq, _⟩; exact h3 hq
    have hnc : ¬ (req.method = "GET"
        ∧ CACHEABLE_PREFIXES.any (fun p => jsStartsWith req.pathname p) = true) := by
      rintro ⟨hq, _⟩; rw [hP] at hq; exact absurd hq (by decide)
    constructor
    · unfold workerFetch
      dsimp only
      rw [if_neg hopt', if_neg hrl', if_neg hor, if_neg hna, hfind]
      dsimp only
      rw [if_neg hnc]
      unfold proxyFetch
      cases oracle with
      | err msg => rfl
      | ok s ubody uct =>
        dsimp only
        rw [if_neg (fun hcond => by rw [hP] at hcond; exact absurd hcond.1 (by decide))]
    · intro s ubody uct
      unfold workerFetch
      dsimp only
      rw [if_neg hopt', if_neg hrl', if_neg hor, if_neg hna, hfind]
      dsimp only
      rw [if_neg hnc]
      unfold proxyFetch
      dsimp only
      exact (corsResponse_fields _ _ _).2.2
  · intro env req now st oracle kv hopt hrl hfind hany0
    have hpred : jsStartsWith req.pathname kv.1 = true := by
      have h := List.find?_some hfind
      simpa using h
    have hmem : kv ∈ API_ROUTES := List.mem_of_find?_eq_some hfind
    obtain ⟨h1, h2, h3⟩ := routePrefix_path_facts req.pathname kv hmem hpred
    have hrl' : ¬ ((checkRateLimit now (jsOrStr req.cfConnectingIP "unknown")
        st.rateLimitMap).1 = false) := by simp [hrl]
    have hor : ¬ (req.pathname = "/" ∨ req.pathname = "/health") := by simp [h1, h2]
    have hna : ¬ (req.pathname = "/api/anthropic" ∧ req.method = "POST") := by
      rintro ⟨hq, _⟩; exact h3 hq
    have hnc : ¬ (req.method = "GET"
        ∧ CACHEABLE_PREFIXES.any (fun p => jsStartsWith req.pathname p) = true) := by
      rintro ⟨_, hq⟩; rw [hany0] at hq; exact absurd hq (by decide)
    unfold workerFetch
    dsimp only
    rw [if_neg hopt, if_neg hrl', if_neg hor, if_neg hna, hfind]
    dsimp only
    rw [if_neg hnc]
    unfold proxyFetch
    cases oracle with
    | err msg => rfl
    | ok s ubody uct =>
      dsimp only
      rw [if_neg (fun hcond => by rw [hany0] at hcond; exact absurd hcond.2.2 (by decide))]
  · intro env req now st oracle hp hm
    have hopt' : ¬ req.method = "OPTIONS" := by rw [hm]; decide
    have hor : ¬ (req.pathname = "/" ∨ req.pathname = "/health") := by
      rw [hp]; decide
    unfold workerFetch
    dsimp only
    rw [if_neg hopt']
    split
    · rfl
    · rw [if_pos ⟨hp, hm⟩]
      repeat' split
      all_goals rfl

/-- C5 witness: on a fresh state, `GET /api/kbo/company/0123456789` with a
200 upstream response writes the cache and answers `MISS`; with a 500
response it does not write; after the 200 write, the same request hits with
`HIT`; a POST never writes. -/
theorem claim5_witness :
    ((200 ≤ 200 ∧ 200 < 300) →
      (workerFetch ({} : Env) reqKboCompany 0 {} (.ok 200 "resp" none)).2.1.responseCache
        = setCache 0 [] "/api/kbo/company/0123456789" "resp" 200
            (jsOrStr none "application/json"))
    ∧ (¬ (200 ≤ 500 ∧ 500 < 300) →
      (workerFetch ({} : Env) reqKboCompany 0 {} (.ok 500 "resp" none)).2.1.responseCache
        = [])
    ∧ (workerFetch ({} : Env) reqKboCompany 0 {} (.ok 200 "resp" none)).1.xCache
        = some "MISS"
    ∧ (workerFetch ({} : Env) reqKboCompany 0
        { responseCache := setCache 0 [] "/api/kbo/company/0123456789" "resp" 200
            "application/json" }
        (.ok 200 "other" none)).1.xCache = some "HIT"
    ∧ (workerFetch ({} : Env)
        ({ reqKboCompany with method := "POST" } : WorkerRequest Nat) 0 {}
        (.ok 200 "resp" none)).2.1.responseCache = [] := by
  have hmiss := (claim5_cache_policy Nat).1 {} reqKboCompany 0 {} 200 "resp" none
    [] rfl rfl rfl rfl
  have hmiss500 := (claim5_cache_policy Nat).1 {} reqKboCompany 0 {} 500 "resp" none
    [] rfl rfl rfl rfl
  have hhit := (claim5_cache_policy Nat).2.1 {} reqKboCompany 0
    { responseCache := setCache 0 [] "/api/kbo/company/0123456789" "resp" 200
        "application/json" }
    (.ok 200 "other" none)
    { body := "resp", status := 200, contentType := "application/json",
      expiresAt := 0 + CACHE_TTL }
    (setCache 0 [] "/api/kbo/company/0123456789" "resp" 200 "application/json")
    rfl rfl rfl (by decide)
  have hpost := (claim5_cache_policy Nat).2.2.1 {}
    ({ reqKboCompany with method := "POST" } : WorkerRequest Nat) 0 {}
    (.ok 200 "resp" none) rfl rfl rfl
  exact ⟨hmiss.1, hmiss500.2.1, hmiss.2.2.1, hhit.1, hpost.1⟩

end CheevoProxy
